import Mathlib

/-!
Verification development for the MCP server wrapper (`mcp-wrapper.py`).

The program is a process-supervision shim: it spawns a child executable,
relays the caller's stdin to the child verbatim, relays the child's stdout
back while dropping log lines, and propagates the child's exit code.

The shallow embedding below models, from the source:
  * `filter_logs` (src lines 14-26): the line classifier;
  * `forward_stream` (src lines 28-42): the per-direction forwarding loop,
    with a stream modelled as the list of chunks `readline` returns before
    end-of-stream;
  * `main` (src lines 44-80): the supervisor's externally visible outcome
    (exit code, number of spawn attempts, diagnostic emission) as a function
    of the spawn outcome;
  * the child environment construction (src lines 49-51).

Calls into the Python standard library (`json.loads`, `str.strip`,
`str.startswith`, `bytes.decode('utf-8', errors='ignore')`) are modelled
concretely, faithful to CPython's documented behaviour.
-/

/-- ASCII hexadecimal digit (`[0-9a-fA-F]`), as required after `\u` in a
JSON string escape. -/
def isHexChar (c : Char) : Bool :=
  (48 ≤ c.toNat && c.toNat ≤ 57) || (97 ≤ c.toNat && c.toNat ≤ 102) ||
  (65 ≤ c.toNat && c.toNat ≤ 70)

/-- ASCII decimal digit test, on the code point (matches `\d` over ASCII
input as used by CPython's JSON number regular expression). -/
def isAsciiDigit (c : Char) : Bool :=
  48 ≤ c.toNat && c.toNat ≤ 57

/-- The whitespace characters stripped by Python `str.strip()` /
tested by `str.isspace()`: ASCII whitespace, the C1 and Unicode
space/separator code points. -/
def isPythonSpace (c : Char) : Bool :=
  (9 ≤ c.toNat && c.toNat ≤ 13) || (28 ≤ c.toNat && c.toNat ≤ 31) ||
  c.toNat = 32 || c.toNat = 133 || c.toNat = 160 || c.toNat = 5760 ||
  (8192 ≤ c.toNat && c.toNat ≤ 8202) || c.toNat = 8232 || c.toNat = 8233 ||
  c.toNat = 8239 || c.toNat = 8287 || c.toNat = 12288

/-- JSON whitespace as skipped by CPython's `json` decoder
(regular expression `[ \t\n\r]*`). -/
def jsonWs (c : Char) : Bool :=
  c.toNat = 32 || c.toNat = 9 || c.toNat = 10 || c.toNat = 13

/-- Skip leading JSON whitespace (the decoder's `_w(s, idx).end()`). -/
def skipWs (s : List Char) : List Char :=
  s.dropWhile jsonWs

/-- Match a literal tail (used for `true`, `false`, `null`, `NaN`,
`Infinity`): returns the rest of the input on success. -/
def expectLit : List Char → List Char → Option (List Char)
  | [], s => some s
  | _ :: _, [] => none
  | p :: ps, c :: cs => if p = c then expectLit ps cs else none

/-- The body of a JSON string after the opening quote, per CPython's
`scanstring` in strict mode: closing quote ends it; backslash escapes
`\" \\ \/ \b \f \n \r \t` and `\uXXXX`; a literal control character below
U+0020 is rejected.  Fuel is one more than the input length, which is
always enough since every step consumes at least one character. -/
def parseStringRest : Nat → List Char → Option (List Char)
  | 0, _ => none
  | _, [] => none
  | fuel + 1, c :: cs =>
    if c = '"' then some cs
    else if c = '\\' then
      match cs with
      | [] => none
      | e :: cs2 =>
        if e = 'u' then
          match cs2 with
          | h1 :: h2 :: h3 :: h4 :: cs3 =>
            if isHexChar h1 && isHexChar h2 && isHexChar h3 && isHexChar h4 then
              parseStringRest fuel cs3
            else none
          | _ => none
        else if e = '"' || e = '\\' || e = '/' || e = 'b' || e = 'f' || e = 'n' || e = 'r' || e = 't' then
          parseStringRest fuel cs2
        else none
    else if c.toNat < 32 then none
    else parseStringRest fuel cs

/-- Integer part of a JSON number: `0 | [1-9][0-9]*`. -/
def parseIntPart : List Char → Option (List Char)
  | [] => none
  | c :: cs =>
    if c = '0' then some cs
    else if isAsciiDigit c then some (cs.dropWhile isAsciiDigit)
    else none

/-- Optional fraction `(\.[0-9]+)?`: consumed only when a digit follows the
dot, as the regular expression's optional group backtracks otherwise. -/
def parseFrac (s : List Char) : List Char :=
  match s with
  | '.' :: d :: r => if isAsciiDigit d then r.dropWhile isAsciiDigit else s
  | _ => s

/-- Optional exponent `([eE][-+]?[0-9]+)?`, again consumed only if the
whole group matches. -/
def parseExp (s : List Char) : List Char :=
  match s with
  | [] => []
  | e :: rest =>
    if e = 'e' || e = 'E' then
      match rest with
      | [] => s
      | s1 :: r2 =>
        if s1 = '+' || s1 = '-' then
          match r2 with
          | [] => s
          | d :: r3 => if isAsciiDigit d then r3.dropWhile isAsciiDigit else s
        else if isAsciiDigit s1 then r2.dropWhile isAsciiDigit
        else s
    else s

/-- A JSON number per CPython's `NUMBER_RE`:
`(-?(?:0|[1-9][0-9]*))(\.[0-9]+)?([eE][-+]?[0-9]+)?`. -/
def parseNumber (s : List Char) : Option (List Char) :=
  let s1 := match s with
    | '-' :: t => t
    | _ => s
  match parseIntPart s1 with
  | none => none
  | some r => some (parseExp (parseFrac r))

/-- Characters that can begin a JSON value accepted by CPython's scanner
(`{`, `[`, `"`, the constants `true`/`false`/`null`/`NaN`/`Infinity`
/`-Infinity`, and numbers). -/
def isValueStart (c : Char) : Bool :=
  c = '{' || c = '[' || c = '"' || c = 't' || c = 'f' || c = 'n' ||
  c = 'N' || c = 'I' || c = '-' || isAsciiDigit c

mutual

/-- CPython's `scan_once`: recognise one JSON value starting at the head of
the input (no leading whitespace), returning the unconsumed rest.  Fuel
bounds the recursion; each fueled call consumes at least one character, so
the generous top-level fuel in `json_loads_ok` is never exhausted. -/
def parseValue : Nat → List Char → Option (List Char)
  | 0, _ => none
  | _, [] => none
  | fuel + 1, c :: cs =>
    if c = '{' then parseObject fuel (skipWs cs)
    else if c = '[' then parseArray fuel (skipWs cs)
    else if c = '"' then parseStringRest (cs.length + 1) cs
    else if c = 't' then expectLit ['r', 'u', 'e'] cs
    else if c = 'f' then expectLit ['a', 'l', 's', 'e'] cs
    else if c = 'n' then expectLit ['u', 'l', 'l'] cs
    else if c = 'N' then expectLit ['a', 'N'] cs
    else if c = 'I' then expectLit ['n', 'f', 'i', 'n', 'i', 't', 'y'] cs
    else if c = '-' then
      match parseNumber (c :: cs) with
      | some r => some r
      | none => expectLit ['I', 'n', 'f', 'i', 'n', 'i', 't', 'y'] cs
    else if isAsciiDigit c then parseNumber (c :: cs)
    else none

/-- Object body after `{` with leading whitespace skipped: either `}` or a
member list. -/
def parseObject : Nat → List Char → Option (List Char)
  | 0, _ => none
  | fuel + 1, s =>
    match s with
    | '}' :: r => some r
    | _ => parseMember fuel s

/-- One `"key" : value` member followed by `, members` or `}`.  The input
starts at the key's opening quote. -/
def parseMember : Nat → List Char → Option (List Char)
  | 0, _ => none
  | fuel + 1, s =>
    match s with
    | '"' :: cs =>
      match parseStringRest (cs.length + 1) cs with
      | none => none
      | some r1 =>
        match skipWs r1 with
        | ':' :: r2 =>
          match parseValue fuel (skipWs r2) with
          | none => none
          | some r3 =>
            match skipWs r3 with
            | ',' :: r4 => parseMember fuel (skipWs r4)
            | '}' :: r4 => some r4
            | _ => none
        | _ => none
    | _ => none

/-- Array body after `[` with leading whitespace skipped: either `]` or an
element list. -/
def parseArray : Nat → List Char → Option (List Char)
  | 0, _ => none
  | fuel + 1, s =>
    match s with
    | ']' :: r => some r
    | _ => parseElems fuel s

/-- One array element followed by `, elements` or `]`. -/
def parseElems : Nat → List Char → Option (List Char)
  | 0, _ => none
  | fuel + 1, s =>
    match parseValue fuel s with
    | none => none
    | some r1 =>
      match skipWs r1 with
      | ',' :: r2 => parseElems fuel (skipWs r2)
      | ']' :: r2 => some r2
      | _ => none

end

/-- Whether Python's `json.loads` accepts the string: skip leading JSON
whitespace, scan one value, skip trailing JSON whitespace, and require the
end of the input.  `filter_logs`'s bare `except` collapses the outcome to
this boolean. -/
def json_loads_ok (line : String) : Bool :=
  match parseValue (2 * (skipWs line.data).length + 8) (skipWs line.data) with
  | some rest => (skipWs rest).isEmpty
  | none => false

/-- Python `str.strip()`: remove leading and trailing Python whitespace. -/
def pyStrip (s : String) : String :=
  String.mk (((s.data.dropWhile isPythonSpace).reverse.dropWhile isPythonSpace).reverse)

/-- `pat` is a prefix of `s`, character by character. -/
def listStarts : List Char → List Char → Bool
  | [], _ => true
  | _ :: _, [] => false
  | p :: ps, c :: cs => p = c && listStarts ps cs

/-- Python `line.startswith(tag)`. -/
def pyStartsWith (line tag : String) : Bool :=
  listStarts tag.data line.data

/-- The six severity markers tested by `filter_logs` (src line 23). -/
def severityTags : List String :=
  ["info:", "warn:", "error:", "dbug:", "fail:", "crit:"]

/-- `filter_logs` (src lines 14-26): pass the line through when it parses
as JSON; otherwise pass it only when it is non-empty after stripping and
does not start with any severity marker. -/
def filter_logs (line : String) : Bool :=
  if json_loads_ok line then true
  else if !(pyStrip line).isEmpty && !severityTags.any (fun t => pyStartsWith line t) then true
  else false

/-- Continuation byte `0x80..0xBF`. -/
def contOk (b : Nat) : Bool :=
  128 ≤ b && b ≤ 191

/-- Lower bound on the second byte of a three-byte sequence (UTF-8 excludes
overlong forms: lead `0xE0` requires `0xA0..`). -/
def cont2Lo (b : Nat) : Nat :=
  if b = 224 then 160 else 128

/-- Upper bound on the second byte of a three-byte sequence (lead `0xED`
tops out at `0x9F`, excluding surrogates). -/
def cont2Hi (b : Nat) : Nat :=
  if b = 237 then 159 else 191

/-- Lower bound on the second byte of a four-byte sequence (lead `0xF0`
requires `0x90..`). -/
def cont4Lo (b : Nat) : Nat :=
  if b = 240 then 144 else 128

/-- Upper bound on the second byte of a four-byte sequence (lead `0xF4`
tops out at `0x8F`, keeping code points at or below U+10FFFF). -/
def cont4Hi (b : Nat) : Nat :=
  if b = 244 then 143 else 191

/-- UTF-8 decoding with `errors='ignore'`, as in CPython: a well-formed
sequence yields its code point; a malformed portion is skipped (the lead
byte together with any valid continuation bytes already consumed), and a
truncated trailing sequence is dropped.  Fuel is one more than the byte
count; every fueled call consumes at least one byte. -/
def utf8Aux : Nat → List Nat → List Char
  | 0, _ => []
  | _, [] => []
  | fuel + 1, b :: bs =>
    if b ≤ 127 then Char.ofNat b :: utf8Aux fuel bs
    else if 194 ≤ b && b ≤ 223 then
      match bs with
      | [] => []
      | b2 :: bs2 =>
        if contOk b2 then Char.ofNat ((b - 192) * 64 + (b2 - 128)) :: utf8Aux fuel bs2
        else utf8Aux fuel bs
    else if 224 ≤ b && b ≤ 239 then
      match bs with
      | [] => []
      | b2 :: bs2 =>
        if cont2Lo b ≤ b2 && b2 ≤ cont2Hi b then
          match bs2 with
          | [] => []
          | b3 :: bs3 =>
            if contOk b3 then
              Char.ofNat ((b - 224) * 4096 + (b2 - 128) * 64 + (b3 - 128)) :: utf8Aux fuel bs3
            else utf8Aux fuel bs2
        else utf8Aux fuel bs
    else if 240 ≤ b && b ≤ 244 then
      match bs with
      | [] => []
      | b2 :: bs2 =>
        if cont4Lo b ≤ b2 && b2 ≤ cont4Hi b then
          match bs2 with
          | [] => []
          | b3 :: bs3 =>
            if contOk b3 then
              match bs3 with
              | [] => []
              | b4 :: bs4 =>
                if contOk b4 then
                  Char.ofNat ((b - 240) * 262144 + (b2 - 128) * 4096 + (b3 - 128) * 64 + (b4 - 128)) :: utf8Aux fuel bs4
                else utf8Aux fuel bs3
            else utf8Aux fuel bs2
        else utf8Aux fuel bs
    else utf8Aux fuel bs

/-- Python `line.decode('utf-8', errors='ignore')` on a byte string. -/
def utf8DecodeIgnore (bytes : List Nat) : String :=
  String.mk (utf8Aux (bytes.length + 1) bytes)

/-- `forward_stream` (src lines 28-42).  A source stream is the list of
chunks that `input_stream.readline` returns before the `b''` sentinel ends
the `iter`; on a blocking pipe those chunks are non-empty (a zero-length
read only signals end-of-stream) but the model keeps the loop's
`if not line: break` faithfully.  The result is the list of chunks written
to the destination, in order: each kept line is written from the original
bytes `line`, while the classifier sees the decoded `line_str`. -/
def forward_stream (should_filter : Bool) : List (List Nat) → List (List Nat)
  | [] => []
  | line :: rest =>
    if line.isEmpty then []
    else if should_filter then
      if filter_logs (utf8DecodeIgnore line) then line :: forward_stream should_filter rest
      else forward_stream should_filter rest
    else line :: forward_stream should_filter rest

/-- Outcome of the single `subprocess.Popen` call in `main`
(src lines 54-60): either the child is spawned and later reports a return
code, or `Popen` raises (`FileNotFoundError` / `PermissionError`). -/
inductive SpawnOutcome where
  | spawned (returncode : Nat)
  | spawn_error
  deriving DecidableEq

/-- What the wrapper process itself exhibits to its caller: its exit
status, how many spawn attempts it made, and whether anything was written
to its own stderr. -/
structure ProgramOutcome where
  exit_code : Nat
  spawn_attempts : Nat
  emits_diagnostic : Bool
  deriving DecidableEq

/-- `main` (src lines 44-80), as seen from outside (named `run_main` since
Lean reserves `main` for entry points).  On a successful spawn
it waits and calls `sys.exit(process.returncode)`, so the process exit
status is the return code (reduced modulo 256 by the C `exit`); the
wrapper writes nothing to its own stderr.  On a spawn failure the raised
exception is caught nowhere, so CPython prints the uncaught-exception
traceback to stderr and exits with status 1.  Exactly one `Popen` call is
made on every path. -/
def run_main : SpawnOutcome → ProgramOutcome
  | SpawnOutcome.spawned rc => ⟨rc % 256, 1, false⟩
  | SpawnOutcome.spawn_error => ⟨1, 1, true⟩

/-- The environment handed to `Popen` (src lines 49-51): a copy of
`os.environ` with the console-logging level forced to `None` and the
.NET execution environment forced to `Production`. -/
def childEnv (environ : String → Option String) : String → Option String :=
  fun k =>
    if k = "Logging__Console__LogLevel__Default" then some "None"
    else if k = "DOTNET_ENVIRONMENT" then some "Production"
    else environ k

lemma parseValue_none_of_head (fuel : Nat) (c : Char) (cs : List Char)
    (h : isValueStart c = false) : parseValue fuel (c :: cs) = none := by
  have h1 : ¬(c = '{') := fun e => by rw [e] at h; exact absurd h (by decide)
  have h2 : ¬(c = '[') := fun e => by rw [e] at h; exact absurd h (by decide)
  have h3 : ¬(c = '"') := fun e => by rw [e] at h; exact absurd h (by decide)
  have h4 : ¬(c = 't') := fun e => by rw [e] at h; exact absurd h (by decide)
  have h5 : ¬(c = 'f') := fun e => by rw [e] at h; exact absurd h (by decide)
  have h6 : ¬(c = 'n') := fun e => by rw [e] at h; exact absurd h (by decide)
  have h7 : ¬(c = 'N') := fun e => by rw [e] at h; exact absurd h (by decide)
  have h8 : ¬(c = 'I') := fun e => by rw [e] at h; exact absurd h (by decide)
  have h9 : ¬(c = '-') := fun e => by rw [e] at h; exact absurd h (by decide)
  have h10 : ¬(isAsciiDigit c = true) := fun e => by
    have ht : isValueStart c = true := by simp [isValueStart, e]
    rw [ht] at h
    exact Bool.noConfusion h
  cases fuel with
  | zero => rfl
  | succ n =>
    simp [parseValue, h1, h2, h3, h4, h5, h6, h7, h8, h9, h10]

lemma isValueStart_false_of_toNat (c : Char)
    (h1 : c.toNat ≠ 123) (h2 : c.toNat ≠ 91) (h3 : c.toNat ≠ 34) (h4 : c.toNat ≠ 116)
    (h5 : c.toNat ≠ 102) (h6 : c.toNat ≠ 110) (h7 : c.toNat ≠ 78) (h8 : c.toNat ≠ 73)
    (h9 : c.toNat ≠ 45) (h10 : ¬(48 ≤ c.toNat ∧ c.toNat ≤ 57)) :
    isValueStart c = false := by
  have e1 : decide (c = '{') = false := decide_eq_false (fun e => h1 (by rw [e]; decide))
  have e2 : decide (c = '[') = false := decide_eq_false (fun e => h2 (by rw [e]; decide))
  have e3 : decide (c = '"') = false := decide_eq_false (fun e => h3 (by rw [e]; decide))
  have e4 : decide (c = 't') = false := decide_eq_false (fun e => h4 (by rw [e]; decide))
  have e5 : decide (c = 'f') = false := decide_eq_false (fun e => h5 (by rw [e]; decide))
  have e6 : decide (c = 'n') = false := decide_eq_false (fun e => h6 (by rw [e]; decide))
  have e7 : decide (c = 'N') = false := decide_eq_false (fun e => h7 (by rw [e]; decide))
  have e8 : decide (c = 'I') = false := decide_eq_false (fun e => h8 (by rw [e]; decide))
  have e9 : decide (c = '-') = false := decide_eq_false (fun e => h9 (by rw [e]; decide))
  have e10 : isAsciiDigit c = false := by
    cases hd : isAsciiDigit c with
    | false => rfl
    | true =>
      exfalso
      simp only [isAsciiDigit, Bool.and_eq_true, decide_eq_true_eq] at hd
      exact h10 hd
  simp only [isValueStart, e1, e2, e3, e4, e5, e6, e7, e8, e9, e10]
  rfl

lemma isValueStart_false_of_pythonSpace (c : Char) (h : isPythonSpace c = true) :
    isValueStart c = false := by
  simp only [isPythonSpace, Bool.or_eq_true, Bool.and_eq_true, decide_eq_true_eq] at h
  apply isValueStart_false_of_toNat <;> omega

lemma json_loads_ok_eq_false_of_all_space (line : String)
    (h : ∀ c ∈ line.data, isPythonSpace c = true) : json_loads_ok line = false := by
  cases hs : skipWs line.data with
  | nil =>
    unfold json_loads_ok
    rw [hs]
    rfl
  | cons c cs =>
    have hmem : c ∈ line.data := by
      have hin : c ∈ skipWs line.data := by
        rw [hs]; exact List.mem_cons_self c cs
      exact (List.dropWhile_sublist jsonWs).subset hin
    have hv := isValueStart_false_of_pythonSpace c (h c hmem)
    unfold json_loads_ok
    rw [hs, parseValue_none_of_head _ c cs hv]

lemma pyStrip_isEmpty_of_all_space (line : String)
    (h : ∀ c ∈ line.data, isPythonSpace c = true) : (pyStrip line).isEmpty = true := by
  have h1 : line.data.dropWhile isPythonSpace = [] := List.dropWhile_eq_nil_iff.mpr h
  unfold pyStrip
  rw [h1]
  rfl

/-- Claim C1: every line of text that parses as a valid structured (JSON)
value is passed through by the line classifier `filter_logs`, whatever the
line's content or severity marker. -/
theorem filter_logs_passes_json (line : String) (h : json_loads_ok line = true) :
    filter_logs line = true := by
  simp [filter_logs, h]

theorem filter_logs_passes_json_witness :
    json_loads_ok "\x7b\"id\":1,\"method\":\"ping\"\x7d" = true ∧
      filter_logs "\x7b\"id\":1,\"method\":\"ping\"\x7d" = true :=
  ⟨by decide, filter_logs_passes_json _ (by decide)⟩

/-- Claim C2: a line that starts with one of the six severity markers and
does not parse as a structured (JSON) value is dropped by `filter_logs`. -/
theorem filter_logs_drops_severity (line : String)
    (h1 : json_loads_ok line = false)
    (h2 : severityTags.any (fun t => pyStartsWith line t) = true) :
    filter_logs line = false := by
  simp [filter_logs, h1, h2]

theorem filter_logs_drops_severity_witness :
    (json_loads_ok "info: something happened" = false ∧
      severityTags.any (fun t => pyStartsWith "info: something happened" t) = true) ∧
      filter_logs "info: something happened" = false :=
  ⟨⟨by decide, by decide⟩, filter_logs_drops_severity _ (by decide) (by decide)⟩

/-- Claim C3: a line that does not parse as a structured (JSON) value, is
non-empty after stripping whitespace, and starts with none of the six
severity markers is passed through by `filter_logs`. -/
theorem filter_logs_passes_plain_text (line : String)
    (h1 : json_loads_ok line = false)
    (h2 : (pyStrip line).isEmpty = false)
    (h3 : severityTags.any (fun t => pyStartsWith line t) = false) :
    filter_logs line = true := by
  simp [filter_logs, h1, h2, h3]

theorem filter_logs_passes_plain_text_witness :
    (json_loads_ok "unexpected free text" = false ∧
      (pyStrip "unexpected free text").isEmpty = false ∧
      severityTags.any (fun t => pyStartsWith "unexpected free text" t) = false) ∧
      filter_logs "unexpected free text" = true :=
  ⟨⟨by decide, by decide, by decide⟩,
    filter_logs_passes_plain_text _ (by decide) (by decide) (by decide)⟩

/-- Claim C4: a line that is empty or consists only of whitespace
characters is dropped by `filter_logs`. -/
theorem filter_logs_drops_whitespace (line : String)
    (h : ∀ c ∈ line.data, isPythonSpace c = true) : filter_logs line = false := by
  have hj := json_loads_ok_eq_false_of_all_space line h
  have hs := pyStrip_isEmpty_of_all_space line h
  simp [filter_logs, hj, hs]

theorem filter_logs_drops_whitespace_witness :
    (∀ c ∈ (" \t ").data, isPythonSpace c = true) ∧ filter_logs " \t " = false :=
  ⟨by decide, filter_logs_drops_whitespace _ (by decide)⟩

example : json_loads_ok "\x7b\"id\":1,\"method\":\"ping\"\x7d" = true := by decide
example : json_loads_ok "info: server started" = false := by decide
example : json_loads_ok "  " = false := by decide
example : json_loads_ok "[1, 2.5e3, null]" = true := by decide
example : json_loads_ok "\x7b\"a\": [true, \"x\"]\x7d " = true := by decide
example : json_loads_ok "01" = false := by decide
example : json_loads_ok "-Infinity" = true := by decide
example : filter_logs "info: server started" = false := by decide
example : filter_logs "unexpected free text" = true := by decide
example : filter_logs " " = false := by decide

/-- Claim C5: with filtering disabled, the forwarder reproduces the source
stream exactly — the same byte chunks in the same order — and terminates at
end-of-stream.  The hypothesis records that `readline` returns a zero-length
chunk only to signal end-of-stream, so every chunk of the stream proper is
non-empty. -/
theorem forward_stream_identity (input : List (List Nat))
    (h : ∀ l ∈ input, l ≠ []) : forward_stream false input = input := by
  induction input with
  | nil => rfl
  | cons l rest ih =>
    have hl : l.isEmpty = false := by
      cases l with
      | nil => exact absurd rfl (h [] (List.mem_cons_self _ _))
      | cons a as => rfl
    simp [forward_stream, hl, ih (fun x hx => h x (List.mem_cons_of_mem _ hx))]

theorem forward_stream_identity_witness :
    (∀ l ∈ [[105, 110], [123, 125, 10]], l ≠ ([] : List Nat)) ∧
      forward_stream false [[105, 110], [123, 125, 10]] = [[105, 110], [123, 125, 10]] :=
  ⟨by decide, forward_stream_identity _ (by decide)⟩

/-- Claim C6: in both filter modes, the output of a forwarder is a sublist
of the input chunks: every byte read is either written unmodified as part
of its whole line or dropped with its whole line, with no duplication,
reordering or partial transformation. -/
theorem forward_stream_sublist (sf : Bool) (input : List (List Nat)) :
    (forward_stream sf input).Sublist input := by
  induction input with
  | nil =>
    simp only [forward_stream]
    exact List.nil_sublist []
  | cons l rest ih =>
    cases he : l.isEmpty with
    | true =>
      simp [forward_stream, he]
    | false =>
      cases sf with
      | false =>
        simp [forward_stream, he]
        exact ih
      | true =>
        by_cases hf : filter_logs (utf8DecodeIgnore l) = true
        · simp [forward_stream, he, hf]
          exact ih
        · simp [forward_stream, he, hf]
          exact List.Sublist.cons l ih

/-- Claim C7: the wrapper's exit status equals the child's exit status
exactly: `main` waits for the child and calls
`sys.exit(process.returncode)`. -/
theorem run_main_propagates_exit_code (rc : Nat) (h : rc < 256) :
    (run_main (SpawnOutcome.spawned rc)).exit_code = rc := by
  simp [run_main, Nat.mod_eq_of_lt h]

theorem run_main_propagates_exit_code_witness :
    3 < 256 ∧ (run_main (SpawnOutcome.spawned 3)).exit_code = 3 :=
  ⟨by decide, run_main_propagates_exit_code 3 (by decide)⟩

/-- Claim C8: the child's environment is the caller's environment with
exactly two overrides — the console-logging level set to `None` and the
execution mode set to `Production` — and every other key inherited
unchanged. -/
theorem childEnv_overrides_and_frame (environ : String → Option String) (k : String)
    (h1 : k ≠ "Logging__Console__LogLevel__Default") (h2 : k ≠ "DOTNET_ENVIRONMENT") :
    childEnv environ k = environ k ∧
      childEnv environ "Logging__Console__LogLevel__Default" = some "None" ∧
      childEnv environ "DOTNET_ENVIRONMENT" = some "Production" := by
  refine ⟨?_, ?_, ?_⟩
  · simp [childEnv, h1, h2]
  · rfl
  · rfl

theorem childEnv_overrides_and_frame_witness :
    ("PATH" ≠ "Logging__Console__LogLevel__Default" ∧ "PATH" ≠ "DOTNET_ENVIRONMENT") ∧
      (childEnv (fun _ => some "x") "PATH" = (fun _ => some "x") "PATH" ∧
        childEnv (fun _ => some "x") "Logging__Console__LogLevel__Default" = some "None" ∧
        childEnv (fun _ => some "x") "DOTNET_ENVIRONMENT" = some "Production") :=
  ⟨⟨by decide, by decide⟩,
    childEnv_overrides_and_frame (fun _ => some "x") "PATH" (by decide) (by decide)⟩

/-- Claim C9 (counterexample): a spawn failure is not silent.  `Popen` is
wrapped in no `try`, so the `FileNotFoundError` / `PermissionError`
escapes `main` and the interpreter prints an uncaught-exception traceback
to stderr — a diagnostic explaining why — before exiting with status 1.
The non-zero exit code is therefore not the sole user-visible failure
behaviour. -/
theorem run_main_spawn_error_not_silent :
    ¬((run_main SpawnOutcome.spawn_error).emits_diagnostic = false) := by decide

/-- Claim C9 (amended): if the child executable cannot be started, the
program terminates with the non-zero exit status 1, makes no second spawn
attempt, and the interpreter emits an uncaught-exception traceback
diagnostic to stderr. -/
theorem run_main_spawn_error_behaviour :
    (run_main SpawnOutcome.spawn_error).exit_code = 1 ∧
      (run_main SpawnOutcome.spawn_error).spawn_attempts = 1 ∧
      (run_main SpawnOutcome.spawn_error).emits_diagnostic = true := by decide

/-- Claim C10: the classifier is total — the bare `except` collapses every
parse failure, of any kind, into the non-JSON branch, so `filter_logs`
always returns the stated boolean — and in the filtering forwarder the
classification is computed on the line decoded as UTF-8 with invalid bytes
ignored while the chunk written to the destination is the original
undecoded bytes. -/
theorem filter_logs_total_and_decoded :
    (∀ line : String,
      filter_logs line =
        (json_loads_ok line ||
          (!(pyStrip line).isEmpty &&
            !severityTags.any (fun t => pyStartsWith line t)))) ∧
    (∀ input : List (List Nat),
      forward_stream true input =
        (input.takeWhile (fun l => !l.isEmpty)).filter
          (fun l => filter_logs (utf8DecodeIgnore l))) := by
  constructor
  · intro line
    unfold filter_logs
    cases hj : json_loads_ok line with
    | true => simp
    | false =>
      cases hb : (!(pyStrip line).isEmpty && !severityTags.any fun t => pyStartsWith line t) with
      | true => simp [hb]
      | false => simp [hb]
  · intro input
    induction input with
    | nil => rfl
    | cons l rest ih =>
      cases he : l.isEmpty with
      | true => simp [forward_stream, he]
      | false =>
        by_cases hf : filter_logs (utf8DecodeIgnore l) = true
        · simp [forward_stream, he, hf, List.takeWhile_cons, List.filter_cons, ih]
        · simp [forward_stream, he, hf, List.takeWhile_cons, List.filter_cons, ih]
